import Mathlib

/-!
# zato-lib, `src/cpp/http.cpp`

The translation unit holds one function, `int placeholder(int x, int y)`, and the
`PYBIND11_MODULE(libzato, m)` block that registers it under the name "placeholder".

The C++ type `int` is embedded as the integers of the 32-bit two's-complement range
(`CInt`); `+` on `int` is embedded as integer addition reduced into that range.
ISO C++ leaves a signed sum outside the range undefined; the embedding takes the
two's-complement result that the add instruction of the targets yields. Of the
statements below only the value at an overflowing pair (first half of the C1
counterexample, and C2 at such a pair) rests on that choice.
-/

namespace Zato

/-! ## Machine integers -/

/-- Smallest value of the C++ type `int` (32 bits, two's complement). -/
def INT_MIN : Int := -2147483648

/-- Largest value of the C++ type `int`. -/
def INT_MAX : Int := 2147483647

/-- Reduction of a mathematical integer into the `int` range modulo 2^32. -/
def wrapInt (n : Int) : Int := (n + 2147483648) % 4294967296 - 2147483648

/-- A value of the C++ type `int`. -/
@[ext]
structure CInt where
  val : Int
  lower : INT_MIN ≤ val
  upper : val ≤ INT_MAX

namespace CInt

/-- The expression `a + b` on two `int` operands. -/
def add (a b : CInt) : CInt :=
  ⟨wrapInt (a.val + b.val), by unfold INT_MIN wrapInt; omega, by unfold INT_MAX wrapInt; omega⟩

instance : Add CInt := ⟨CInt.add⟩

/-- The literal `0`. -/
def zero : CInt := ⟨0, by decide, by decide⟩

instance : Zero CInt := ⟨CInt.zero⟩

/-- An `int` given by a mathematical integer that lies in the range. -/
def ofInt (n : Int) (h : INT_MIN ≤ n ∧ n ≤ INT_MAX) : CInt := ⟨n, h.1, h.2⟩

end CInt

/-! ## The function -/

/-- Source: `int placeholder(int x, int y) { return x + y; }`. -/
def placeholder (x y : CInt) : CInt := x + y

/-- A call of `placeholder` in an ambient program state `s` (globals, heap, the
interpreter's state). The body names nothing but its two parameters, so the state is
handed back as it came. -/
def placeholderCall {σ : Type} (s : σ) (x y : CInt) : CInt × σ := (placeholder x y, s)

/-! ## The extension module -/

/-- Modelled from the spec: an entry of a module's export table, as the binding layer
(pybind11, not part of this repository's sources) keeps it: the exported name, the
bound C++ function and its docstring. -/
structure Export where
  name : String
  impl : CInt → CInt → CInt
  doc : String

/-- Modelled from the spec: a native extension module as the binding layer builds it:
its name, its docstring and its export table. -/
structure PyModule where
  name : String
  doc : String
  exports : List Export

namespace PyModule

/-- Modelled from the spec: the module object that `PYBIND11_MODULE(name, m)` hands to
its body as `m`: no docstring and no export yet. -/
def create (name : String) : PyModule := ⟨name, "", []⟩

/-- Modelled from the spec: the assignment `m.doc() = d`. -/
def setDoc (m : PyModule) (d : String) : PyModule := ⟨m.name, d, m.exports⟩

/-- Modelled from the spec: the registration `m.def(name, &f, doc)`, which adds one
entry to the export table. -/
def defFn (m : PyModule) (name : String) (f : CInt → CInt → CInt) (doc : String) :
    PyModule :=
  ⟨m.name, m.doc, m.exports ++ [⟨name, f, doc⟩]⟩

/-- Modelled from the spec: the table entry an exported name resolves to. -/
def lookup (m : PyModule) (name : String) : Option Export :=
  m.exports.find? (fun e => e.name == name)

/-- Modelled from the spec: a call of the export `name` with two `int` arguments;
`none` when the module exports nothing under that name. -/
def call (m : PyModule) (name : String) (x y : CInt) : Option CInt :=
  (m.lookup name).map (fun e => e.impl x y)

end PyModule

/-- Source:
`PYBIND11_MODULE(libzato, m) { m.doc() = "This is a placeholder";`
`m.def("placeholder", &placeholder, "A placeholder function"); }`. -/
def libzato : PyModule :=
  PyModule.defFn (PyModule.setDoc (PyModule.create "libzato") "This is a placeholder")
    "placeholder" placeholder "A placeholder function"

/-! ## Shared lemmas -/

theorem wrapInt_lower (n : Int) : INT_MIN ≤ wrapInt n := by
  unfold INT_MIN wrapInt
  omega

theorem wrapInt_upper (n : Int) : wrapInt n ≤ INT_MAX := by
  unfold INT_MAX wrapInt
  omega

theorem wrapInt_of_inRange (n : Int) (h₁ : INT_MIN ≤ n) (h₂ : n ≤ INT_MAX) :
    wrapInt n = n := by
  unfold INT_MIN at h₁
  unfold INT_MAX at h₂
  unfold wrapInt
  omega

theorem wrapInt_eq_iff (n : Int) : wrapInt n = n ↔ INT_MIN ≤ n ∧ n ≤ INT_MAX := by
  constructor
  · intro h
    exact ⟨h ▸ wrapInt_lower n, h ▸ wrapInt_upper n⟩
  · rintro ⟨h₁, h₂⟩
    exact wrapInt_of_inRange n h₁ h₂

theorem wrapInt_modEq (n : Int) : wrapInt n ≡ n [ZMOD 4294967296] := by
  unfold wrapInt Int.ModEq
  omega

theorem placeholder_val (x y : CInt) : (placeholder x y).val = wrapInt (x.val + y.val) :=
  rfl

theorem CInt.zero_val : (0 : CInt).val = 0 := rfl

/-! ## The claims -/

/-- C1, as the specification states it, fails: at `x = 2147483647`, `y = 1` the call
`placeholder(x, y)` yields `-2147483648`, not the sum `2147483648`, which no `int`
holds. -/
theorem placeholder_sum_counterexample :
    (placeholder (CInt.ofInt 2147483647 (by decide)) (CInt.ofInt 1 (by decide))).val
        = -2147483648 ∧
      (placeholder (CInt.ofInt 2147483647 (by decide)) (CInt.ofInt 1 (by decide))).val
        ≠ 2147483647 + 1 := by
  constructor <;> decide

/-- C1, amended: for every pair of `int` values `x` and `y`, `placeholder(x, y)` is the
mathematical sum `x + y` exactly when that sum lies in the range
`[-2^31, 2^31 - 1]` of `int`. -/
theorem placeholder_eq_sum_iff (x y : CInt) :
    (placeholder x y).val = x.val + y.val ↔
      INT_MIN ≤ x.val + y.val ∧ x.val + y.val ≤ INT_MAX := by
  rw [placeholder_val]
  exact wrapInt_eq_iff (x.val + y.val)

/-- C2: `placeholder` has no failure case: every pair of `int` arguments has a result,
and the result is a value of `int`, never an error. -/
theorem placeholder_total (x y : CInt) :
    ∃ r : Int, (placeholder x y).val = r ∧ INT_MIN ≤ r ∧ r ≤ INT_MAX :=
  ⟨(placeholder x y).val, rfl, (placeholder x y).lower, (placeholder x y).upper⟩

/-- C3: `placeholder` has no side effect: called in any two program states `s` and `t`
with the same arguments it gives the same value, it leaves the state as it found it, and
a second call after the first gives the value of the first. -/
theorem placeholder_no_side_effect {σ : Type} (s t : σ) (x y : CInt) :
    (placeholderCall s x y).1 = (placeholderCall t x y).1 ∧
      (placeholderCall s x y).2 = s ∧
      (placeholderCall (placeholderCall s x y).2 x y).1 = (placeholderCall s x y).1 :=
  ⟨rfl, rfl, rfl⟩

/-- C4: the export table of `libzato` has the single entry named "placeholder", and a
call of that export with `x` and `y` gives `placeholder(x, y)`. -/
theorem libzato_exports_placeholder :
    libzato.exports.map (fun e => e.name) = ["placeholder"] ∧
      ∀ x y : CInt, libzato.call "placeholder" x y = some (placeholder x y) := by
  refine ⟨rfl, fun x y => ?_⟩
  simp [libzato, PyModule.call, PyModule.lookup, PyModule.defFn, PyModule.setDoc,
    PyModule.create]

/-- C5: for `int` values `x` and `y` whose mathematical sum lies in
`[-2^31, 2^31 - 1]`, `placeholder(x, y)` is that sum, and it is a value of `int`. -/
theorem placeholder_exact_of_inRange (x y : CInt)
    (h : INT_MIN ≤ x.val + y.val ∧ x.val + y.val ≤ INT_MAX) :
    (placeholder x y).val = x.val + y.val ∧
      INT_MIN ≤ (placeholder x y).val ∧ (placeholder x y).val ≤ INT_MAX := by
  have e : (placeholder x y).val = x.val + y.val := by
    rw [placeholder_val]
    exact wrapInt_of_inRange _ h.1 h.2
  exact ⟨e, (placeholder x y).lower, (placeholder x y).upper⟩

/-- Witness of C5 at `x = 20`, `y = 22`. -/
theorem placeholder_exact_of_inRange_witness :
    (INT_MIN ≤ (20 : Int) + 22 ∧ (20 : Int) + 22 ≤ INT_MAX) ∧
      (placeholder (CInt.ofInt 20 (by decide)) (CInt.ofInt 22 (by decide))).val = 42 :=
  ⟨by decide,
    (placeholder_exact_of_inRange (CInt.ofInt 20 (by decide)) (CInt.ofInt 22 (by decide))
      (by decide)).1⟩

/-- C6: `placeholder` is commutative: `placeholder(x, y) = placeholder(y, x)` for every
pair of `int` values. -/
theorem placeholder_comm (x y : CInt) : placeholder x y = placeholder y x := by
  apply CInt.ext
  rw [placeholder_val, placeholder_val, Int.add_comm]

/-- C7: zero is a two-sided identity of `placeholder`: `placeholder(x, 0) = x` and
`placeholder(0, x) = x` for every `int` value `x`. -/
theorem placeholder_zero_identity (x : CInt) :
    placeholder x 0 = x ∧ placeholder 0 x = x := by
  constructor
  · apply CInt.ext
    rw [placeholder_val, CInt.zero_val, Int.add_zero]
    exact wrapInt_of_inRange _ x.lower x.upper
  · apply CInt.ext
    rw [placeholder_val, CInt.zero_val, Int.zero_add]
    exact wrapInt_of_inRange _ x.lower x.upper

end Zato
